import Mathlib

/-!
Verification of the homepage feature-list renderer
(`src/components/HomepageFeatures/index.tsx`) of the
`willyhardian/expressjstutorial` Docusaurus site.

The component is a pure function from a static list of `FeatureItem`
records to a markup tree.  We shallowly embed the produced React
element tree as an inductive `Node` type: elements carry a tag, an
attribute list, an optional React `key` (React keys are reconciliation
metadata and are *not* serialized into the output markup), and a list
of children.  JSX text and `ReactNode` fragments are `Node.text` /
arbitrary `Node` values.
-/

/-- A markup (React element tree) node.  `key` models the React `key`
prop attached via `<Feature key={idx} ... />`; it does not appear in
the serialized markup. -/
inductive Node where
  | element (tag : String) (attrs : List (String × String))
      (key : Option Nat) (children : List Node)
  | text (s : String)

/-- `FeatureItem` from the source: `title` is a string, `Svg` is a
reference to a vector-image asset (the component holds only the
reference, modelled as the asset path), `description` is a `ReactNode`
markup fragment. -/
structure FeatureItem where
  title : String
  Svg : String
  description : Node

/-- CSS-module class `styles.features` (build-generated name, opaque to
the component's logic). -/
def styles_features : String := "features"

/-- CSS-module class `styles.featureSvg`. -/
def styles_featureSvg : String := "featureSvg"

/-- `clsx('col col--4')` — `clsx` with a single string argument returns
that string. -/
def clsx1 (s : String) : String := s

/-- The Docusaurus `@theme/Heading` component: `<Heading as={t}>c</Heading>`
renders an element with tag `t` holding the children. -/
def Heading (as : String) (children : List Node) : Node :=
  Node.element as [] none children

/-- The static `FeatureList` data table, transcribed from the source.
The `<>...</>` description fragments are plain text nodes. -/
def FeatureList : List FeatureItem :=
  [ { title := "Solve the Chaos",
      Svg := "@site/static/img/compass.svg",
      description := Node.text "Express.js is powerful but unopinionated. We provide the missing framework: a clear, consistent structure (Controllers, Services, Repositories) for scalable projects." },
    { title := "Production Focus",
      Svg := "@site/static/img/cloud.svg",
      description := Node.text "Move beyond simple CRUD. Learn essential real-world concepts like Dockerization, CI/CD pipelines, robust error handling, and security hardening from day one." },
    { title := "End-to-End Backend",
      Svg := "@site/static/img/link.svg",
      description := Node.text "Gain expert-level implementation knowledge for architecting, securing, testing, and deploying robust API services" } ]

/-- The `Feature` function from the source:
```
function Feature({ title, Svg, description }: FeatureItem) {
  return (
    <div className={clsx('col col--4')}>
      <div className="text--center">
        <Svg className={styles.featureSvg} role="img" />
      </div>
      <div className="text--center padding-horiz--md">
        <Heading as="h3">{title}</Heading>
        <p>{description}</p>
      </div>
    </div>);
}
```
The `Svg` component renders the referenced vector asset inline; we model
that as an `svg` element carrying the asset reference in `src`. -/
def Feature (item : FeatureItem) : Node :=
  Node.element "div" [("class", clsx1 "col col--4")] none
    [ Node.element "div" [("class", "text--center")] none
        [ Node.element "svg"
            [("class", styles_featureSvg), ("role", "img"), ("src", item.Svg)]
            none [] ],
      Node.element "div" [("class", "text--center padding-horiz--md")] none
        [ Heading "h3" [Node.text item.title],
          Node.element "p" [] none [item.description] ] ]

/-- Attach a React key to a node (the `key={idx}` prop on
`<Feature key={idx} {...props} />`). -/
def setKey (k : Nat) : Node → Node
  | Node.element t a _ c => Node.element t a (some k) c
  | Node.text s => Node.text s

/-- The row children: `FeatureList.map((props, idx) => <Feature key={idx} {...props} />)`,
generalized over the input list. -/
def renderRow (items : List FeatureItem) : List Node :=
  items.enum.map (fun p => setKey p.1 (Feature p.2))

/-- `HomepageFeatures` from the source, generalized over the input list:
```
export default function HomepageFeatures(): ReactNode {
  return (
    <section className={styles.features}>
      <div className="container">
        <div className="row">
          {FeatureList.map((props, idx) => (<Feature key={idx} {...props} />))}
        </div>
      </div>
    </section>);
}
```
-/
def HomepageFeatures (items : List FeatureItem) : Node :=
  Node.element "section" [("class", styles_features)] none
    [ Node.element "div" [("class", "container")] none
        [ Node.element "div" [("class", "row")] none (renderRow items) ] ]

/-- The component as exported (closed over the static `FeatureList`). -/
def HomepageFeaturesPage : Node := HomepageFeatures FeatureList

/-! ### Observers on the produced markup -/

/-- The tag of an element node. -/
def Node.tagOf : Node → Option String
  | Node.element t _ _ _ => some t
  | Node.text _ => none

/-- Look up an attribute value on an element node. -/
def nodeAttr (name : String) : Node → Option String
  | Node.element _ attrs _ _ => (attrs.find? (fun p => p.1 == name)).map Prod.snd
  | Node.text _ => none

/-- The React key attached to a node. -/
def nodeKey : Node → Option Nat
  | Node.element _ _ k _ => k
  | Node.text _ => none

/-- Extract the visual blocks (children of the `row` div) from the
renderer's output. -/
def rowBlocks : Node → List Node
  | Node.element _ _ _ [Node.element _ _ _ [Node.element _ _ _ kids]] => kids
  | _ => []

/-- The heading text of a rendered feature block (the text child of the
`h3` inside the second inner div). -/
def blockHeadingText : Node → Option String
  | Node.element _ _ _
      [_, Node.element _ _ _ [Node.element _ _ _ [Node.text s], _]] => some s
  | _ => none

/-- The tag of the heading element of a rendered feature block. -/
def blockHeadingTag : Node → Option String
  | Node.element _ _ _ [_, Node.element _ _ _ [h, _]] => h.tagOf
  | _ => none

/-- The paragraph content of a rendered feature block (the single child
of the `p` inside the second inner div). -/
def blockParagraph : Node → Option Node
  | Node.element _ _ _
      [_, Node.element _ _ _ [_, Node.element _ _ _ [d]]] => some d
  | _ => none

/-- The icon node of a rendered feature block (the single child of the
first inner div). -/
def blockIcon : Node → Option Node
  | Node.element _ _ _ [Node.element _ _ _ [icon], _] => some icon
  | _ => none

/-- Serialize an attribute list to markup text. -/
def renderAttrs : List (String × String) → String
  | [] => ""
  | (n, v) :: rest => " " ++ n ++ "=\x22" ++ v ++ "\x22" ++ renderAttrs rest

mutual

/-- Serialize a node to its markup string (React keys are
reconciliation metadata and are not emitted). -/
def renderString : Node → String
  | Node.text s => s
  | Node.element t attrs _ kids =>
      "<" ++ t ++ renderAttrs attrs ++ ">" ++ renderList kids ++ "</" ++ t ++ ">"

/-- Serialize a list of sibling nodes. -/
def renderList : List Node → String
  | [] => ""
  | n :: rest => renderString n ++ renderList rest

end

/-- The `role` attribute of a block's icon element. -/
def blockIconRole (b : Node) : Option String :=
  (blockIcon b).bind (nodeAttr "role")

/-- Modelled from the spec: the grid-width rule of the external Infima
stylesheet (shipped by the site theme, not part of this repository's
sources) assigns an element of class `col--n` a width of `n` of the
row's 12 grid columns. -/
def colFraction (n : Nat) : ℚ := (n : ℚ) / 12

/-- The observable world around a render pass: the stored feature data
and a trace of I/O operations performed. -/
structure World where
  features : List FeatureItem
  ioTrace : List String

/-- The render pass as a state transformer: the source component only
reads `FeatureList` and builds markup; it contains no assignment to the
list or its elements and no I/O call, so its translation performs a
read of the stored features and leaves the world as it found it. -/
def renderPass (w : World) : Node × World :=
  (HomepageFeatures w.features, w)

/-- Helper: extracting the row children from the renderer's output
recovers exactly the rendered, keyed feature blocks. -/
theorem rowBlocks_homepage (items : List FeatureItem) :
    rowBlocks (HomepageFeatures items) = renderRow items := rfl

/-- C1: for every input list of `FeatureItem` of length N, the markup
produced by the (generalized) renderer contains exactly N visual
blocks, the i-th block being the rendering of the i-th input item —
one block per item, in input order. -/
theorem homepage_block_per_item (items : List FeatureItem) :
    (rowBlocks (HomepageFeatures items)).length = items.length ∧
    ∀ i : Nat, (rowBlocks (HomepageFeatures items))[i]? =
      (items[i]?).map (fun it => setKey i (Feature it)) := by
  rw [rowBlocks_homepage]
  constructor
  · simp [renderRow]
  · intro i
    simp [renderRow, List.getElem?_enum, Option.map_map]
    rfl

/-- C2: the heading text of every rendered block equals the item's
`title` character for character, and the paragraph content is the
item's `description` passed through unmodified. -/
theorem feature_title_description_exact (item : FeatureItem) :
    blockHeadingText (Feature item) = some item.title ∧
    blockParagraph (Feature item) = some item.description :=
  ⟨rfl, rfl⟩

/-- C3 counterexample: the claim says the icon carries an accessibility
role of "image", but the source writes `role="img"`; at the concrete
first item of `FeatureList` the rendered icon's role attribute is
`"img"`, not `"image"`. -/
theorem icon_role_image_refuted :
    ¬ (∀ item : FeatureItem, blockIconRole (Feature item) = some "image") := by
  intro h
  have := h { title := "Solve the Chaos",
              Svg := "@site/static/img/compass.svg",
              description := Node.text "" }
  simp [blockIconRole, blockIcon, Feature, nodeAttr, styles_featureSvg] at this

/-- C3 (amended): every rendered block's icon is emitted as an inline
image element (`svg`) carrying the accessibility role attribute
`"img"` (the ARIA image role). -/
theorem icon_role_img (item : FeatureItem) :
    ∃ icon, blockIcon (Feature item) = some icon ∧
      icon.tagOf = some "svg" ∧ nodeAttr "role" icon = some "img" :=
  ⟨_, rfl, rfl, rfl⟩

/-- C4: the static `FeatureList` is a build-time constant (a literal in
the source, embedded here as a closed definition) holding exactly three
entries, none with an empty title; its order is carried into the output
unchanged (the block headings appear in data order). -/
theorem featureList_invariants :
    FeatureList.length = 3 ∧
    FeatureList.all (fun it => !(it.title == "")) = true ∧
    (rowBlocks (HomepageFeatures FeatureList)).map blockHeadingText =
      FeatureList.map (fun it => some it.title) := by
  refine ⟨rfl, by decide, rfl⟩

/-- C5: every visual block in the rendered output carries the fixed
class `col col--4`, which under the Infima 12-column grid claims
4/12 = one-third of the row's width; in particular all blocks of the
observed three-item data claim equal row width. -/
theorem block_one_third_width (items : List FeatureItem) :
    (rowBlocks (HomepageFeatures items)).all
      (fun b => nodeAttr "class" b == some "col col--4") = true ∧
    colFraction 4 = 1 / 3 := by
  constructor
  · rw [rowBlocks_homepage, renderRow]
    apply List.all_eq_true.mpr
    intro x hx
    obtain ⟨p, hp, rfl⟩ := List.mem_map.mp hx
    rfl
  · norm_num [colFraction]

/-- C6: the renderer has no failure path: it is total, an empty input
yields the surrounding container with zero child blocks, and for every
input the same outer `section` container is produced. -/
theorem empty_input_graceful :
    rowBlocks (HomepageFeatures []) = [] ∧
    HomepageFeatures [] = Node.element "section" [("class", styles_features)] none
      [ Node.element "div" [("class", "container")] none
          [ Node.element "div" [("class", "row")] none [] ] ] ∧
    ∀ items : List FeatureItem, (HomepageFeatures items).tagOf = some "section" :=
  ⟨rfl, rfl, fun _ => rfl⟩

/-- C7: the renderer is deterministic: any two invocations on identical
input serialize to byte-for-byte identical markup (the embedding is a
pure function of the input alone, mirroring the stateless source). -/
theorem render_deterministic (items1 items2 : List FeatureItem)
    (h : items1 = items2) :
    renderString (HomepageFeatures items1) = renderString (HomepageFeatures items2) := by
  rw [h]

/-- Witness for C7 at the concrete `FeatureList` input. -/
theorem render_deterministic_witness :
    renderString (HomepageFeatures FeatureList) = renderString (HomepageFeatures FeatureList) :=
  render_deterministic FeatureList FeatureList rfl

/-- C8: rendering has no side effects beyond producing the markup: the
render pass leaves the stored feature data (hence every title, icon
reference and description) unchanged, performs no I/O, and its markup
result is exactly the pure render of the input. -/
theorem render_no_side_effects (w : World) :
    (renderPass w).2.features = w.features ∧
    (renderPass w).2.ioTrace = w.ioTrace ∧
    (renderPass w).1 = HomepageFeatures w.features :=
  ⟨rfl, rfl, rfl⟩

/-- C9: the rendered blocks' React keys are exactly the zero-based
input indices 0, 1, …, N-1, and are therefore pairwise distinct. -/
theorem block_keys_are_indices (items : List FeatureItem) :
    (rowBlocks (HomepageFeatures items)).map nodeKey =
      (List.range items.length).map some ∧
    ((rowBlocks (HomepageFeatures items)).map nodeKey).Nodup := by
  have hmap : (rowBlocks (HomepageFeatures items)).map nodeKey =
      (List.range items.length).map some := by
    rw [rowBlocks_homepage, renderRow, List.map_map, ← List.enum_map_fst items,
      List.map_map]
    rfl
  exact ⟨hmap, hmap ▸ (List.nodup_range items.length).map (Option.some_injective _)⟩

/-- C10: the heading showing each item's title is always rendered at
the fixed heading level `h3`, regardless of the item's content. -/
theorem heading_level_fixed_h3 (item : FeatureItem) :
    blockHeadingTag (Feature item) = some "h3" := rfl
